import Mathlib

/-!
Shallow embedding of `src/memory-profile-langraph.py`.

The script builds a one-node LangGraph workflow (`joke_node`), compiles it
with an in-memory checkpointer, and in `__main__` invokes it five times with
distinct thread identifiers, forcing garbage collection after each call.

Modelling choices:
* A chat message is a record with a role and a content string
  (`HumanMessage(content=...)` builds a human message; the remote model
  returns a message).
* The remote model (`llm`, reached through `chain = prompt | llm;
  chain.invoke(...)`) is an oracle `String → Message` taking the fully
  formatted prompt.  `joke_node` also returns the list of prompts it sent to
  the oracle, so that "invokes the model exactly once" is a statement about
  the call log rather than an article of faith.
* The `operator.add` reducer declared on `State.messages` is `applyUpdate`:
  the graph engine combines the prior state with a node's returned update by
  list concatenation.
* Side effects of the driver (`graph.invoke`, `print`, `gc.collect()`,
  `os.getenv`) are recorded as an event trace, so that ordering and
  multiplicity claims about the entry point are provable.
* For error propagation the oracle may fail: `joke_nodeE` is the same node
  body over `String → Except ε Message`; since the Python code has no
  try/except, an oracle failure is returned unchanged.
-/

inductive Role where
  | human
  | ai
deriving DecidableEq, Repr

/-- A chat message: `HumanMessage(content=...)` or a model response. -/
structure Message where
  role : Role
  content : String
deriving DecidableEq, Repr

/-- `HumanMessage(content=topic)` from langchain_core.messages. -/
def HumanMessage (content : String) : Message :=
  { role := Role.human, content := content }

/-- `class State(TypedDict): messages: Annotated[list, operator.add]`. -/
structure State where
  messages : List Message
deriving DecidableEq, Repr

/-- The `operator.add` reducer on `State.messages`: the graph engine merges a
node's returned update into the prior state by list concatenation. -/
def applyUpdate (s : State) (upd : State) : State :=
  { messages := s.messages ++ upd.messages }

/-- Line 34: `topic = state["messages"][-1].content if state["messages"] else
"elephants"`. -/
def chooseTopic (state : State) : String :=
  match state.messages.getLast? with
  | some m => m.content
  | none => "elephants"

/-- Lines 35-37: `ChatPromptTemplate.from_template("Tell me a joke about
{topic}.")` applied to the chosen topic: the substitution of `topic` into the
fixed template. -/
def jokePrompt (topic : String) : String :=
  "Tell me a joke about " ++ topic ++ "."

/-- Lines 33-38, `joke_node`: choose the topic, format the prompt, invoke the
chain (`prompt | llm`) once, and return `{"messages": [result]}`.  The second
component is the log of prompts sent to the model oracle, one entry per
`chain.invoke` call in the body. -/
def joke_node (llm : String → Message) (state : State) : State × List String :=
  let topic := chooseTopic state
  let prompt := jokePrompt topic
  let result := llm prompt
  ({ messages := [result] }, [prompt])

/-- `joke_node` over a fallible model oracle.  The Python body has no
try/except and no validation, so a failure of `chain.invoke` is returned
unchanged; on success the body is as in `joke_node`. -/
def joke_nodeE {ε : Type} (llm : String → Except ε Message) (state : State) :
    Except ε State :=
  let topic := chooseTopic state
  let prompt := jokePrompt topic
  (llm prompt).map fun result => { messages := [result] }

/-- `graph.invoke` on the compiled one-node workflow: run the entry node
`joke` on the state and merge its update with the `operator.add` reducer,
then reach `END`. -/
def graphInvoke (llm : String → Message) (s : State) : State :=
  applyUpdate s (joke_node llm s).1

/-- `graph.invoke` with a fallible model oracle: a failure inside the node
propagates out of the graph invocation unchanged. -/
def graphInvokeE {ε : Type} (llm : String → Except ε Message) (s : State) :
    Except ε State :=
  (joke_nodeE llm s).map (applyUpdate s)

/-- Line 52: `initial_state = {"messages": [HumanMessage(content=topic)]}`. -/
def initial_state (topic : String) : State :=
  { messages := [HumanMessage topic] }

/-- Observable side effects of the script, in program order. -/
inductive Event where
  | getenvRead (name : String)
  | invokeGraph (threadId : String) (topic : String)
  | printJoke (content : String)
  | gcCollect
deriving DecidableEq, Repr

/-- Lines 49-56, `run_graph(topic, thread_id)`: build the per-thread config,
build the initial state, invoke the graph, print the last message's content,
delete the local result and force garbage collection.  Returns the final
graph state together with the event trace of the call. -/
def run_graph (llm : String → Message) (topic : String) (threadId : String) :
    State × List Event :=
  let result := graphInvoke llm (initial_state topic)
  let printed :=
    match result.messages.getLast? with
    | some m => m.content
    | none => ""
  (result,
    [Event.invokeGraph threadId topic, Event.printJoke printed,
     Event.gcCollect])

/-- `run_graph` with a fallible model oracle: no failure is caught between
the model call and the caller of `run_graph`. -/
def run_graphE {ε : Type} (llm : String → Except ε Message) (topic : String)
    (_threadId : String) : Except ε State :=
  graphInvokeE llm (initial_state topic)

/-- Lines 58-60, the `__main__` loop: `for i in range(5):
run_graph(f"elephants {i}", thread_id=f"thread_{i}")`. -/
def mainEvents (llm : String → Message) : List Event :=
  (List.range 5).flatMap fun i =>
    (run_graph llm ("elephants " ++ toString i) ("thread_" ++ toString i)).2

/-- Lines 15-18: the four `os.getenv` reads performed once at module import
time, before the graph is built and before the `__main__` loop runs. -/
def moduleInitEvents : List Event :=
  [Event.getenvRead "AZURE_OPENAI_API_KEY",
   Event.getenvRead "AZURE_OPENAI_ENDPOINT",
   Event.getenvRead "AZURE_OPENAI_API_VERSION",
   Event.getenvRead "AZURE_OPENAI_DEPLOYMENT_NAME"]

/-- The whole script's event trace: module initialisation followed by the
`__main__` loop. -/
def programEvents (llm : String → Message) : List Event :=
  moduleInitEvents ++ mainEvents llm

/-- How many times a trace reads a given environment variable. -/
def countGetenv (name : String) (tr : List Event) : Nat :=
  tr.countP fun e =>
    match e with
    | Event.getenvRead n => n == name
    | _ => false

/-- How many graph invocations a trace contains. -/
def countInvokes (tr : List Event) : Nat :=
  tr.countP fun e =>
    match e with
    | Event.invokeGraph _ _ => true
    | _ => false

/-- The thread identifiers of a trace's graph invocations, in order. -/
def threadIds (tr : List Event) : List String :=
  tr.filterMap fun e =>
    match e with
    | Event.invokeGraph tid _ => some tid
    | _ => none

/-- `true` when the trace contains a `gcCollect` before any further
`invokeGraph`. -/
def gcBeforeNextInvoke : List Event → Bool
  | [] => false
  | Event.gcCollect :: _ => true
  | Event.invokeGraph _ _ :: _ => false
  | _ :: rest => gcBeforeNextInvoke rest

/-- `true` when every `invokeGraph` in the trace is followed by a
`gcCollect` before the next `invokeGraph` (garbage collection is forced
after each invocation). -/
def gcAfterEachInvoke : List Event → Bool
  | [] => true
  | Event.invokeGraph _ _ :: rest =>
      gcBeforeNextInvoke rest && gcAfterEachInvoke rest
  | _ :: rest => gcAfterEachInvoke rest

/-- Lines 15-18: the module-level configuration read from the environment.
`os.getenv(name)` with no default yields `None` when unset; the API version
and deployment name have string defaults. -/
structure Config where
  apiKey : Option String
  endpoint : Option String
  apiVersion : String
  deployment : String
deriving DecidableEq, Repr

/-- Lines 15-18, evaluated against an environment `env : name ↦ value?`:
`AZURE_OPENAI_API_KEY = os.getenv("AZURE_OPENAI_API_KEY")` and so on, with
defaults `"2024-12-01-preview"` and `"gpt-4o-mini"` on the last two. -/
def loadConfig (env : String → Option String) : Config :=
  { apiKey := env "AZURE_OPENAI_API_KEY"
    endpoint := env "AZURE_OPENAI_ENDPOINT"
    apiVersion := (env "AZURE_OPENAI_API_VERSION").getD "2024-12-01-preview"
    deployment := (env "AZURE_OPENAI_DEPLOYMENT_NAME").getD "gpt-4o-mini" }

/-- A concrete model oracle used by witnesses: answers every prompt with an
AI message echoing the prompt. -/
def oracleEcho : String → Message :=
  fun p => { role := Role.ai, content := p }

/-- C1: for every state whose messages list is non-empty, `joke_node` uses
the content of the last message in the list as the topic substituted into
the prompt it sends to the model. -/
theorem joke_node_uses_last_message_content (llm : String → Message)
    (s : State) (h : s.messages ≠ []) :
    chooseTopic s = (s.messages.getLast h).content ∧
    (joke_node llm s).2 = [jokePrompt ((s.messages.getLast h).content)] := by
  have hl : s.messages.getLast? = some (s.messages.getLast h) :=
    List.getLast?_eq_getLast_of_ne_nil h
  constructor
  · simp [chooseTopic, hl]
  · simp [joke_node, chooseTopic, hl]

/-- Witness for C1 at the one-message state `[HumanMessage "cats"]`. -/
theorem joke_node_uses_last_message_content_witness :
    (State.mk [HumanMessage "cats"]).messages ≠ [] ∧
    (joke_node oracleEcho (State.mk [HumanMessage "cats"])).2
      = [jokePrompt "cats"] := by
  refine ⟨by simp, ?_⟩
  have h : (State.mk [HumanMessage "cats"]).messages ≠ [] := by simp
  have := joke_node_uses_last_message_content oracleEcho
    (State.mk [HumanMessage "cats"]) h
  simpa using this.2

/-- C2: for every state whose messages list is empty, `joke_node` falls back
to the default topic `"elephants"` and substitutes it into the prompt. -/
theorem joke_node_empty_fallback (llm : String → Message) (s : State)
    (h : s.messages = []) :
    chooseTopic s = "elephants" ∧
    (joke_node llm s).2 = [jokePrompt "elephants"] := by
  constructor
  · simp [chooseTopic, h]
  · simp [joke_node, chooseTopic, h]

/-- Witness for C2 at the empty state. -/
theorem joke_node_empty_fallback_witness :
    (State.mk []).messages = [] ∧
    chooseTopic (State.mk []) = "elephants" := by
  exact ⟨rfl, (joke_node_empty_fallback oracleEcho (State.mk []) rfl).1⟩

/-- C3: for every input state, `joke_node` sends the model exactly one
prompt, namely the fixed template with the chosen topic substituted, and
returns the model's answer wrapped as a one-element messages list and
nothing else. -/
theorem joke_node_single_model_call (llm : String → Message) (s : State) :
    (joke_node llm s).2 = [jokePrompt (chooseTopic s)] ∧
    (joke_node llm s).2.length = 1 ∧
    (joke_node llm s).1 = State.mk [llm (jokePrompt (chooseTopic s))] := by
  exact ⟨rfl, rfl, rfl⟩

/-- C4: the messages list is append-only under the `operator.add` reducer:
the merged state is the prior list extended with the node's returned
messages, every prior entry survives at its old position, and a graph
invocation appends exactly the node's one new message. -/
theorem messages_append_only (llm : String → Message) (s upd : State) :
    (applyUpdate s upd).messages = s.messages ++ upd.messages ∧
    (applyUpdate s upd).messages.take s.messages.length = s.messages ∧
    (graphInvoke llm s).messages
      = s.messages ++ [llm (jokePrompt (chooseTopic s))] := by
  refine ⟨rfl, ?_, rfl⟩
  simp [applyUpdate]

/-- C5: the `__main__` loop invokes the graph exactly five times, the five
thread identifiers are pairwise distinct, and a garbage collection follows
each invocation before the next one. -/
theorem main_loop_five_invocations (llm : String → Message) :
    countInvokes (mainEvents llm) = 5 ∧
    (threadIds (mainEvents llm)).Nodup ∧
    gcAfterEachInvoke (mainEvents llm) = true := by
  refine ⟨rfl, ?_, rfl⟩
  have h : threadIds (mainEvents llm)
      = ["thread_0", "thread_1", "thread_2", "thread_3", "thread_4"] := rfl
  rw [h]
  decide

/-- C6: each of the four environment variables is read exactly once, during
module initialisation, and the `__main__` loop performs no environment
read at all. -/
theorem env_vars_read_once_at_startup (llm : String → Message) :
    (∀ name : String, countGetenv name (mainEvents llm) = 0) ∧
    countGetenv "AZURE_OPENAI_API_KEY" (programEvents llm) = 1 ∧
    countGetenv "AZURE_OPENAI_ENDPOINT" (programEvents llm) = 1 ∧
    countGetenv "AZURE_OPENAI_API_VERSION" (programEvents llm) = 1 ∧
    countGetenv "AZURE_OPENAI_DEPLOYMENT_NAME" (programEvents llm) = 1 := by
  exact ⟨fun name => rfl, rfl, rfl, rfl, rfl⟩

/-- C7: neither `joke_node` nor `run_graph` catches or retries anything: the
node (and hence the whole graph call) fails with error `e` exactly when the
model oracle fails with `e` on the one prompt that is sent, and the error
value is unchanged. -/
theorem errors_propagate_unchanged {ε : Type} (llm : String → Except ε Message)
    (s : State) (topic threadId : String) (e : ε) :
    (joke_nodeE llm s = Except.error e ↔
      llm (jokePrompt (chooseTopic s)) = Except.error e) ∧
    (run_graphE llm topic threadId = Except.error e ↔
      llm (jokePrompt (chooseTopic (initial_state topic))) = Except.error e) := by
  constructor
  · rcases h : llm (jokePrompt (chooseTopic s)) with e' | m <;>
      simp [joke_nodeE, Except.map, h]
  · rcases h : llm (jokePrompt (chooseTopic (initial_state topic))) with e' | m <;>
      simp [run_graphE, graphInvokeE, joke_nodeE, Except.map, h]

/-- C8: when unset, the API version defaults to `"2024-12-01-preview"` and
the deployment name to `"gpt-4o-mini"`, while the API key and endpoint are
passed through exactly as the environment yields them (`none` when unset),
without validation. -/
theorem config_defaults_and_passthrough (env : String → Option String)
    (hv : env "AZURE_OPENAI_API_VERSION" = none)
    (hd : env "AZURE_OPENAI_DEPLOYMENT_NAME" = none) :
    (loadConfig env).apiVersion = "2024-12-01-preview" ∧
    (loadConfig env).deployment = "gpt-4o-mini" ∧
    (loadConfig env).apiKey = env "AZURE_OPENAI_API_KEY" ∧
    (loadConfig env).endpoint = env "AZURE_OPENAI_ENDPOINT" := by
  simp [loadConfig, hv, hd]

/-- Witness for C8 at the empty environment. -/
theorem config_defaults_and_passthrough_witness :
    (loadConfig (fun _ => none)).apiVersion = "2024-12-01-preview" ∧
    (loadConfig (fun _ => none)).deployment = "gpt-4o-mini" := by
  have := config_defaults_and_passthrough (fun _ => none) rfl rfl
  exact ⟨this.1, this.2.1⟩

/-- C9: every graph invocation issued by `run_graph` starts from the state
holding exactly one human message whose content is the topic argument; that
state is non-empty, so `joke_node` never takes the fallback branch and the
last-element access succeeds, yielding the topic itself. -/
theorem run_graph_initial_state_nonempty (llm : String → Message)
    (topic threadId : String) :
    initial_state topic = State.mk [HumanMessage topic] ∧
    (initial_state topic).messages ≠ [] ∧
    chooseTopic (initial_state topic) = topic ∧
    (run_graph llm topic threadId).1.messages
      = [HumanMessage topic, llm (jokePrompt topic)] := by
  refine ⟨rfl, by simp [initial_state], ?_, ?_⟩
  · simp [chooseTopic, initial_state, HumanMessage]
  · simp [run_graph, graphInvoke, applyUpdate, joke_node, initial_state,
      chooseTopic, HumanMessage]

/-- C10: `joke_node` treats its input as read-only: it is a pure function of
the state, its returned update holds exactly the one new model message and
none of the input's messages, and merging the update leaves every prior
entry of the input list in place. -/
theorem joke_node_frame (llm : String → Message) (s : State) :
    (joke_node llm s).1.messages = [llm (jokePrompt (chooseTopic s))] ∧
    (joke_node llm s).1.messages.length = 1 ∧
    (applyUpdate s (joke_node llm s).1).messages.take s.messages.length
      = s.messages := by
  refine ⟨rfl, rfl, ?_⟩
  simp [applyUpdate]
